import Mathlib

/-!
Shallow embedding of the Web Print Portal (src/App.tsx): the copies
stepper (`CustomNumberInput`), the file-selection bookkeeping of
`PrintForm`, the submission handler `handleSubmit` of `AppContent`, and
the auto-dismiss timer effect.  Definitions are transcribed from the
source; machine behaviour (the fetch outcome, timer events) is made an
explicit parameter.
-/

/-- StatusType mirrors `type StatusType = 'info' | 'success' | 'error'`. -/
inductive StatusType
  | info
  | success
  | error
  deriving DecidableEq, Repr

/-- Status mirrors `interface Status { message: string; type: StatusType }`. -/
structure Status where
  message : String
  type : StatusType
  deriving DecidableEq, Repr

/-- CopiesValue is the state of `CustomNumberInput`'s `count`: a number,
or the transient empty editing state (`setCount('' as any)`). -/
inductive CopiesValue
  | empty
  | num (n : Int)
  deriving DecidableEq, Repr

/-- handleDecrement mirrors `setCount(prev => Math.max(min, prev - 1))`. -/
def handleDecrement (min : Int) (prev : Int) : Int :=
  max min (prev - 1)

/-- handleIncrement mirrors `setCount(prev => prev + 1)`. -/
def handleIncrement (prev : Int) : Int :=
  prev + 1

/-- isJsSpace lists the whitespace characters `parseInt` skips before
parsing. -/
def isJsSpace (c : Char) : Bool :=
  c = ' ' || c = '\t' || c = '\n' || c = '\r' || c = '\x0b' || c = '\x0c'

/-- takeDigits collects the leading run of decimal digits. -/
def takeDigits : List Char → List Char
  | [] => []
  | c :: cs => if c.isDigit then c :: takeDigits cs else []

/-- digitsToNat reads a digit list as a base-10 numeral. -/
def digitsToNat (ds : List Char) : Nat :=
  ds.foldl (fun acc c => 10 * acc + (c.toNat - 48)) 0

/-- parseInt models JavaScript `parseInt(value, 10)`: skip leading
whitespace, read an optional sign and then the longest digit run; `none`
models `NaN` (no digits found). -/
def parseInt (s : String) : Option Int :=
  let cs := s.data.dropWhile isJsSpace
  match cs with
  | '-' :: rest =>
    let ds := takeDigits rest
    if ds = [] then none else some (-(digitsToNat ds : Int))
  | '+' :: rest =>
    let ds := takeDigits rest
    if ds = [] then none else some ((digitsToNat ds : Int))
  | other =>
    let ds := takeDigits other
    if ds = [] then none else some ((digitsToNat ds : Int))

/-- handleInputChange mirrors the change handler of `CustomNumberInput`:
empty text enters the transient empty state; otherwise the text is
parsed with `parseInt(value, 10)` and the count is replaced only when
the result is not NaN. -/
def handleInputChange (count : CopiesValue) (value : String) : CopiesValue :=
  if value = "" then
    CopiesValue.empty
  else
    match parseInt value with
    | some numValue => CopiesValue.num numValue
    | none => count

/-- handleInputBlur mirrors `if (count === '' || count < min) setCount(min)`. -/
def handleInputBlur (min : Int) (count : CopiesValue) : CopiesValue :=
  match count with
  | CopiesValue.empty => CopiesValue.num min
  | CopiesValue.num c => if c < min then CopiesValue.num min else CopiesValue.num c

/-- FormState gathers the form-owned data `handleSubmit` can touch: the
stepper's count, `PrintForm`'s recorded `fileName`, and the underlying
file input element's `value`. -/
structure FormState where
  copies : CopiesValue
  fileName : Option String
  fileInputValue : String
  deriving DecidableEq, Repr

/-- defaultFormState is the initial form: `useState(defaultValue)` with
`defaultValue={1}`, `useState<string | null>(null)`, empty file input. -/
def defaultFormState : FormState :=
  { copies := CopiesValue.num 1, fileName := none, fileInputValue := "" }

/-- handleFileChange mirrors `PrintForm`'s file change handler: with at
least one file the first file's name is recorded, else the name clears. -/
def handleFileChange (f : FormState) (files : List String) : FormState :=
  match files with
  | name :: _ => { f with fileName := some name }
  | [] => { f with fileName := none }

/-- handleRemoveFile mirrors `fileInputRef.current.value = ''` followed
by `setFileName(null)`. -/
def handleRemoveFile (f : FormState) : FormState :=
  { f with fileInputValue := "", fileName := none }

/-- formReset models `form.reset()`: the form's fields return to their
declared defaults (the copies stepper has `defaultValue={1}`). -/
def formReset (f : FormState) : FormState :=
  { f with copies := CopiesValue.num 1 }

/-- clearFileInputValue models `fileInputRef.current.value = ''`. -/
def clearFileInputValue (f : FormState) : FormState :=
  { f with fileInputValue := "" }

/-- resetFileName models the reset hook installed by `PrintForm`,
`(fileInputRef.current as any).resetFileName = () => setFileName(null)`. -/
def resetFileName (f : FormState) : FormState :=
  { f with fileName := none }

/-- AppState is `AppContent`'s state together with the form state. -/
structure AppState where
  status : Option Status
  isLoading : Bool
  form : FormState
  deriving DecidableEq, Repr

/-- initialAppState mirrors the `useState` initialisers of `AppContent`. -/
def initialAppState : AppState :=
  { status := none, isLoading := false, form := defaultFormState }

/-- Config holds the environment values read in `handleSubmit`;
`none` models an unset variable. -/
structure Config where
  apiKey : Option String
  webhookUrl : Option String
  deriving DecidableEq, Repr

/-- truthy models the JavaScript truthiness test `!x` applied to a
`string | undefined`: false for `undefined` and for the empty string. -/
def truthy : Option String → Bool
  | none => false
  | some s => s ≠ ""

/-- FetchOutcome is the resolution of the single `fetch` call: an HTTP
response with a status code and a body text, or a thrown transport
error. -/
inductive FetchOutcome
  | response (httpStatus : Nat) (body : String)
  | thrown
  deriving DecidableEq, Repr

/-- responseOk models `Response.ok`: the HTTP status lies in [200, 300). -/
def responseOk (httpStatus : Nat) : Bool :=
  decide (200 ≤ httpStatus) && decide (httpStatus < 300)

/-- missingConfigMessage is the exact string set when configuration is
missing. -/
def missingConfigMessage : String :=
  "Error: Missing configuration. Please check your .env.local file."

/-- sendingInfoMessage is the info status set while the request is in
flight. -/
def sendingInfoMessage : String :=
  "Uploading and sending to printer..."

/-- successMessage is the status message on a 2xx response. -/
def successMessage : String :=
  "Success! Print job sent."

/-- fallbackErrorText is the generic text substituted for an empty
response body, `errorText || 'Could not send print job.'`. -/
def fallbackErrorText : String :=
  "Could not send print job."

/-- networkErrorMessage is the status message of the catch branch. -/
def networkErrorMessage : String :=
  "Error: An unexpected network error occurred."

/-- SubmitResult pairs the state after `handleSubmit` with whether the
`fetch` call was actually issued. -/
structure SubmitResult where
  state : AppState
  fetchCalled : Bool
  deriving DecidableEq, Repr

/-- handleSubmit transcribes `AppContent`'s submit handler.  When
`apiKey` or `webhookUrl` is falsy it sets the missing-configuration
error status and returns before the fetch.  Otherwise it sets
`isLoading`, sets the info status, issues the fetch (whose resolution is
the `outcome` parameter), and branches: on `response.ok` it sets the
success status, calls `form.reset()`, clears the file input's value and
invokes the `resetFileName` hook; on a non-ok response it sets an error
status built from the body text via the template literal
`Error: ${errorText || 'Could not send print job.'}`; on a thrown error
it sets the generic network error status.  The `finally` block resets
`isLoading`. -/
def handleSubmit (cfg : Config) (outcome : FetchOutcome) (s : AppState) : SubmitResult :=
  if !truthy cfg.apiKey || !truthy cfg.webhookUrl then
    { state := { s with status := some { message := missingConfigMessage, type := StatusType.error } },
      fetchCalled := false }
  else
    let s1 : AppState :=
      { s with isLoading := true,
               status := some { message := sendingInfoMessage, type := StatusType.info } }
    let s2 : AppState :=
      match outcome with
      | FetchOutcome.response httpStatus body =>
        if responseOk httpStatus then
          { s1 with status := some { message := successMessage, type := StatusType.success },
                    form := resetFileName (clearFileInputValue (formReset s1.form)) }
        else
          { s1 with status := some { message := "Error: " ++ (if body = "" then fallbackErrorText else body),
                                     type := StatusType.error } }
      | FetchOutcome.thrown =>
        { s1 with status := some { message := networkErrorMessage, type := StatusType.error } }
    { state := { s2 with isLoading := false }, fetchCalled := true }

/-- NotifierState is the state relevant to the auto-dismiss effect: the
current status and the pending 5000ms timeout, if one is armed. -/
structure NotifierState where
  status : Option Status
  timer : Option Nat
  deriving DecidableEq, Repr

/-- NotifierEvent: a status update (re-running the `useEffect` with a
new `status` value, after its cleanup cleared any pending timeout), or
the firing of an armed timeout. -/
inductive NotifierEvent
  | statusEvent (s : Option Status)
  | timerFire
  deriving DecidableEq, Repr

/-- armsTimer mirrors the effect's guard
`status && (status.type === 'success' || status.type === 'error')`. -/
def armsTimer : Option Status → Bool
  | none => false
  | some st => st.type = StatusType.success || st.type = StatusType.error

/-- notifierStep transcribes the auto-dismiss `useEffect` of
`AppContent`: a status event first runs the previous effect's cleanup
(`clearTimeout`), discarding any armed timer, then arms a 5000ms timeout
exactly when the new status is success or error; a firing armed timer
executes `setStatus(null)`. -/
def notifierStep (ns : NotifierState) : NotifierEvent → NotifierState
  | NotifierEvent.statusEvent s =>
    { status := s, timer := if armsTimer s then some 5000 else none }
  | NotifierEvent.timerFire =>
    match ns.timer with
    | some _ => { status := none, timer := none }
    | none => ns

/-- C1: when the configured apiKey or webhookUrl is absent (falsy), the
submission handler sets an error status with the exact
missing-configuration message and never issues the fetch. -/
theorem submit_missing_config (cfg : Config) (outcome : FetchOutcome) (s : AppState)
    (h : truthy cfg.apiKey = false ∨ truthy cfg.webhookUrl = false) :
    (handleSubmit cfg outcome s).state.status
        = some { message := "Error: Missing configuration. Please check your .env.local file.",
                 type := StatusType.error }
    ∧ (handleSubmit cfg outcome s).fetchCalled = false := by
  rcases h with h | h <;>
    simp [handleSubmit, h, missingConfigMessage]

/-- C1 witness: with no apiKey configured, the handler at the initial
state reports the missing-configuration error and performs no fetch. -/
theorem submit_missing_config_witness :
    truthy (Config.mk none (some "https://example.com/hook")).apiKey = false
    ∧ ((handleSubmit (Config.mk none (some "https://example.com/hook"))
          (FetchOutcome.response 200 "") initialAppState).state.status
        = some { message := "Error: Missing configuration. Please check your .env.local file.",
                 type := StatusType.error }
      ∧ (handleSubmit (Config.mk none (some "https://example.com/hook"))
          (FetchOutcome.response 200 "") initialAppState).fetchCalled = false) :=
  ⟨rfl, submit_missing_config (Config.mk none (some "https://example.com/hook"))
      (FetchOutcome.response 200 "") initialAppState (Or.inl rfl)⟩

/-- C2: with configuration present and a 2xx response, the handler ends
with the exact success status, the form reset to defaults, the file
selection cleared, and isLoading false. -/
theorem submit_success_resets (cfg : Config) (httpStatus : Nat) (body : String) (s : AppState)
    (hk : truthy cfg.apiKey = true) (hu : truthy cfg.webhookUrl = true)
    (h2 : 200 ≤ httpStatus ∧ httpStatus < 300) :
    (handleSubmit cfg (FetchOutcome.response httpStatus body) s).state
        = { status := some { message := "Success! Print job sent.", type := StatusType.success },
            isLoading := false,
            form := defaultFormState } := by
  have hok : responseOk httpStatus = true := by
    simp [responseOk]
    omega
  simp [handleSubmit, hk, hu, hok, successMessage, resetFileName, clearFileInputValue,
    formReset, defaultFormState]

/-- C2 witness: a 200 response at the initial state yields the success
status, the default form and isLoading false. -/
theorem submit_success_resets_witness :
    truthy (some "k") = true ∧ truthy (some "u") = true ∧ (200 ≤ 200 ∧ 200 < 300)
    ∧ (handleSubmit (Config.mk (some "k") (some "u"))
        (FetchOutcome.response 200 "ok") initialAppState).state
      = { status := some { message := "Success! Print job sent.", type := StatusType.success },
          isLoading := false,
          form := defaultFormState } :=
  ⟨rfl, rfl, by decide,
    submit_success_resets (Config.mk (some "k") (some "u")) 200 "ok" initialAppState
      rfl rfl (by decide)⟩

/-- C3: on every exit path of a submission that entered the Sending
state (any fetch outcome: 2xx, non-2xx, or thrown), isLoading ends
false. -/
theorem submit_isLoading_reset (cfg : Config) (outcome : FetchOutcome) (s : AppState)
    (hk : truthy cfg.apiKey = true) (hu : truthy cfg.webhookUrl = true) :
    (handleSubmit cfg outcome s).state.isLoading = false := by
  cases outcome <;> simp [handleSubmit, hk, hu]

/-- C3 witness: a thrown transport error at the initial state leaves
isLoading false. -/
theorem submit_isLoading_reset_witness :
    truthy (some "k") = true ∧ truthy (some "u") = true
    ∧ (handleSubmit (Config.mk (some "k") (some "u")) FetchOutcome.thrown
        initialAppState).state.isLoading = false :=
  ⟨rfl, rfl,
    submit_isLoading_reset (Config.mk (some "k") (some "u")) FetchOutcome.thrown
      initialAppState rfl rfl⟩

/-- C4 counterexample: for a 500 response with body "printer offline",
the resulting status message is "Error: printer offline", not the bare
body text "printer offline" that the claim states. -/
theorem submit_body_message_counterexample :
    (handleSubmit (Config.mk (some "k") (some "u"))
        (FetchOutcome.response 500 "printer offline") initialAppState).state.status
      = some { message := "Error: printer offline", type := StatusType.error }
    ∧ (handleSubmit (Config.mk (some "k") (some "u"))
        (FetchOutcome.response 500 "printer offline") initialAppState).state.status
      ≠ some { message := "printer offline", type := StatusType.error } := by
  constructor <;> decide

/-- C4 amended: on a non-2xx response the handler sets an error status
whose message is "Error: " followed by the response body text when that
text is non-empty, and "Error: Could not send print job." when the body
text is empty; in particular for body "printer offline" the message
contains "printer offline". -/
theorem submit_nonOk_error_message (cfg : Config) (httpStatus : Nat) (body : String) (s : AppState)
    (hk : truthy cfg.apiKey = true) (hu : truthy cfg.webhookUrl = true)
    (hno : responseOk httpStatus = false) :
    (handleSubmit cfg (FetchOutcome.response httpStatus body) s).state.status
        = some { message := "Error: " ++ (if body = "" then "Could not send print job." else body),
                 type := StatusType.error } := by
  simp [handleSubmit, hk, hu, hno, fallbackErrorText]

/-- C4 amended witness: a 500 response with body "printer offline"
yields the error status with message "Error: printer offline". -/
theorem submit_nonOk_error_message_witness :
    truthy (some "k") = true ∧ truthy (some "u") = true ∧ responseOk 500 = false
    ∧ (handleSubmit (Config.mk (some "k") (some "u"))
        (FetchOutcome.response 500 "printer offline") initialAppState).state.status
      = some { message := "Error: "
                  ++ (if ("printer offline" : String) = "" then "Could not send print job."
                      else "printer offline"),
               type := StatusType.error } :=
  ⟨rfl, rfl, by decide,
    submit_nonOk_error_message (Config.mk (some "k") (some "u")) 500 "printer offline"
      initialAppState rfl rfl (by decide)⟩

/-- C6: blurring the copies input while it holds the transient empty
state, or an integer below min, sets the value to exactly min. -/
theorem blur_coerces_to_min (min : Int) (count : CopiesValue)
    (h : count = CopiesValue.empty ∨ ∃ c : Int, count = CopiesValue.num c ∧ c < min) :
    handleInputBlur min count = CopiesValue.num min := by
  rcases h with h | ⟨c, hc, hlt⟩
  · subst h
    rfl
  · subst hc
    simp [handleInputBlur, hlt]

/-- C6 witness: clearing the field (empty state) and blurring with
min = 1 yields exactly 1. -/
theorem blur_coerces_to_min_witness :
    (CopiesValue.empty = CopiesValue.empty
      ∨ ∃ c : Int, CopiesValue.empty = CopiesValue.num c ∧ c < 1)
    ∧ handleInputBlur 1 CopiesValue.empty = CopiesValue.num 1 :=
  ⟨Or.inl rfl, blur_coerces_to_min 1 CopiesValue.empty (Or.inl rfl)⟩

/-- C7: one decrement yields max(min, current − 1), and iterating the
decrement any number of times from a value ≥ min never goes below min. -/
theorem decrement_clamped_at_min (min c : Int) (n : Nat) (h : min ≤ c) :
    handleDecrement min c = max min (c - 1)
    ∧ min ≤ (handleDecrement min)^[n] c := by
  constructor
  · rfl
  · induction n with
    | zero => simpa using h
    | succ k ih =>
      rw [Function.iterate_succ_apply']
      simp [handleDecrement]

/-- C7 witness: starting at 3 with min = 1, five decrements stay ≥ 1. -/
theorem decrement_clamped_at_min_witness :
    (1 : Int) ≤ 3
    ∧ (handleDecrement 1 3 = max 1 (3 - 1) ∧ (1 : Int) ≤ (handleDecrement 1)^[5] 3) :=
  ⟨by decide, decrement_clamped_at_min 1 3 5 (by decide)⟩

/-- C8: one increment maps c to c + 1 with no upper bound, and n
increments from min yield min + n. -/
theorem increment_unbounded (min : Int) (n : Nat) :
    (∀ c : Int, handleIncrement c = c + 1)
    ∧ (handleIncrement)^[n] min = min + n := by
  constructor
  · intro c
    rfl
  · induction n with
    | zero => simp
    | succ k ih =>
      rw [Function.iterate_succ_apply', ih]
      simp [handleIncrement]
      ring

/-- outcomeFailed marks the failure resolutions of the fetch: a non-ok
response or a thrown error. -/
def outcomeFailed : FetchOutcome → Bool
  | FetchOutcome.response httpStatus _ => !responseOk httpStatus
  | FetchOutcome.thrown => true

/-- C9: on a failed submission that entered the Sending state, the
copies value, the recorded file name and the file input's value are all
left unchanged. -/
theorem submit_failure_frame (cfg : Config) (outcome : FetchOutcome) (s : AppState)
    (hk : truthy cfg.apiKey = true) (hu : truthy cfg.webhookUrl = true)
    (hf : outcomeFailed outcome = true) :
    (handleSubmit cfg outcome s).state.form.copies = s.form.copies
    ∧ (handleSubmit cfg outcome s).state.form.fileName = s.form.fileName
    ∧ (handleSubmit cfg outcome s).state.form.fileInputValue = s.form.fileInputValue := by
  cases outcome with
  | response httpStatus body =>
    simp [outcomeFailed] at hf
    simp [handleSubmit, hk, hu, hf]
  | thrown =>
    simp [handleSubmit, hk, hu]

/-- C9 witness: a 500 response leaves a non-default form (2 copies, a
selected file) untouched. -/
theorem submit_failure_frame_witness :
    truthy (some "k") = true ∧ truthy (some "u") = true
    ∧ outcomeFailed (FetchOutcome.response 500 "oops") = true
    ∧ ((handleSubmit (Config.mk (some "k") (some "u")) (FetchOutcome.response 500 "oops")
          (AppState.mk none false (FormState.mk (CopiesValue.num 2) (some "doc.pdf") "doc.pdf"))).state.form.copies
        = (FormState.mk (CopiesValue.num 2) (some "doc.pdf") "doc.pdf").copies
      ∧ (handleSubmit (Config.mk (some "k") (some "u")) (FetchOutcome.response 500 "oops")
          (AppState.mk none false (FormState.mk (CopiesValue.num 2) (some "doc.pdf") "doc.pdf"))).state.form.fileName
        = (FormState.mk (CopiesValue.num 2) (some "doc.pdf") "doc.pdf").fileName
      ∧ (handleSubmit (Config.mk (some "k") (some "u")) (FetchOutcome.response 500 "oops")
          (AppState.mk none false (FormState.mk (CopiesValue.num 2) (some "doc.pdf") "doc.pdf"))).state.form.fileInputValue
        = (FormState.mk (CopiesValue.num 2) (some "doc.pdf") "doc.pdf").fileInputValue) :=
  ⟨rfl, rfl, by decide,
    submit_failure_frame (Config.mk (some "k") (some "u")) (FetchOutcome.response 500 "oops")
      (AppState.mk none false (FormState.mk (CopiesValue.num 2) (some "doc.pdf") "doc.pdf"))
      rfl rfl (by decide)⟩

/-- C10: a non-empty edit whose text does not parse leaves the count
unchanged; empty text enters the transient empty state; text with a
parseable integer prefix replaces the count with that integer. -/
theorem inputChange_parse_discipline (count : CopiesValue) (value : String) :
    (value = "" → handleInputChange count value = CopiesValue.empty)
    ∧ (value ≠ "" → parseInt value = none → handleInputChange count value = count)
    ∧ (∀ n : Int, value ≠ "" → parseInt value = some n →
        handleInputChange count value = CopiesValue.num n) := by
  refine ⟨fun h => ?_, fun h hn => ?_, fun n h hn => ?_⟩
  · simp [handleInputChange, h]
  · simp [handleInputChange, h, hn]
  · simp [handleInputChange, h, hn]

/-- C10 witness: typing "abc" (non-empty, parseInt NaN) leaves the
count 3 unchanged. -/
theorem inputChange_parse_discipline_witness :
    ("abc" : String) ≠ "" ∧ parseInt "abc" = none
    ∧ handleInputChange (CopiesValue.num 3) "abc" = CopiesValue.num 3 :=
  ⟨by decide, by decide,
    (inputChange_parse_discipline (CopiesValue.num 3) "abc").2.1 (by decide) (by decide)⟩

/-- C5: a status event determines the armed timer solely from the new
status (any previously armed timer is discarded: last-status-wins):
success or error arms a 5000ms timer, info arms none, and a firing armed
timer clears the status back to absent. -/
theorem notifier_autodismiss_discipline (ns : NotifierState) (s : Option Status) :
    (notifierStep ns (NotifierEvent.statusEvent s)).timer
        = (if armsTimer s then some 5000 else none)
    ∧ (notifierStep ns (NotifierEvent.statusEvent s)).status = s
    ∧ (∀ st : Status, st.type = StatusType.info →
        (notifierStep ns (NotifierEvent.statusEvent (some st))).timer = none)
    ∧ (∀ t : Nat, (notifierStep ns (NotifierEvent.statusEvent s)).timer = some t →
        (notifierStep (notifierStep ns (NotifierEvent.statusEvent s))
            NotifierEvent.timerFire).status = none) := by
  refine ⟨rfl, rfl, fun st hst => ?_, fun t ht => ?_⟩
  · simp [notifierStep, armsTimer, hst]
  · simp [notifierStep] at ht ⊢
    rcases h : armsTimer s with hf | htr
    · simp [h] at ht
    · simp [h]

/-- C5 witness: with a stale success status and an armed timer, a new
info status leaves no armed timer. -/
theorem notifier_autodismiss_discipline_witness :
    (Status.mk "new" StatusType.info).type = StatusType.info
    ∧ (notifierStep (NotifierState.mk (some (Status.mk "old" StatusType.success)) (some 5000))
        (NotifierEvent.statusEvent (some (Status.mk "new" StatusType.info)))).timer = none :=
  ⟨rfl,
    (notifier_autodismiss_discipline
        (NotifierState.mk (some (Status.mk "old" StatusType.success)) (some 5000))
        (some (Status.mk "new" StatusType.info))).2.2.1
      (Status.mk "new" StatusType.info) rfl⟩
